import Mathlib

/-!
Shallow embedding of `lib/glib.py` from MyPaint (Python 2 era code:
`str` is a byte string, `unicode` is a text string of code points).

The module wraps four GLib directory lookups and one byte-to-text
converter (`filename_to_unicode`), plus a cache-warming entry point
(`init_user_dir_caches`) that queries and logs every directory.

Modelling choices:
* Python values relevant to the module are `PyVal`: `none` (Python
  `None`), `bytes` (Python 2 `str`, a list of byte values) and `text`
  (Python 2 `unicode`, a list of Unicode code points).
* Raised exceptions are reified as `Except PyError`.
* The platform is a record `GlibEnv`: the `sys.platform == "win32"`
  flag, the behaviour of `GLib.filename_to_utf8` (a function from byte
  strings to an optional byte-string result), and the results of the
  four `g_get_user_*_dir` primitives (`None` or a byte string).
* `logger.debug` calls and primitive queries are reified as an event
  trace (`DirEvent`), so that counting and ordering of log entries can
  be stated.
-/

namespace MyPaintGlib

/-- Python 2 values that can flow through this module: `None`, a byte
string (Python 2 `str`), or a text string (Python 2 `unicode`,
represented by its list of code points). -/
inductive PyVal where
  | none : PyVal
  | bytes (bs : List Nat) : PyVal
  | text (cs : List Nat) : PyVal
  deriving Repr, DecidableEq

/-- Python exceptions that the embedded code can raise. -/
inductive PyError where
  | typeError (msg : String) : PyError
  | unicodeDecodeError (msg : String) : PyError
  | unicodeEncodeError (msg : String) : PyError
  | attributeError (msg : String) : PyError
  deriving Repr, DecidableEq

/-- Whether a byte is a UTF-8 continuation byte (`10xxxxxx`). -/
def isUtf8Cont (b : Nat) : Bool := 0x80 ≤ b ∧ b < 0xC0

/-- Decoding of one UTF-8 sequence from the front of a byte list:
returns the code point and the remaining bytes, or `none` for a stray
continuation byte, an overlong encoding (start bytes `0xC0`/`0xC1`
and too-small values of longer forms), a truncated sequence or a code
point above `0x10FFFF`. -/
def utf8DecodeOne : List Nat → Option (Nat × List Nat)
  | [] => Option.none
  | b :: rest =>
    if b < 0x80 then some (b, rest)
    else if b < 0xC2 then Option.none
    else if b < 0xE0 then
      match rest with
      | b1 :: rest2 =>
        if isUtf8Cont b1 then some ((b - 0xC0) * 0x40 + (b1 - 0x80), rest2)
        else Option.none
      | [] => Option.none
    else if b < 0xF0 then
      match rest with
      | b1 :: b2 :: rest3 =>
        if isUtf8Cont b1 ∧ isUtf8Cont b2 then
          let cp := (b - 0xE0) * 0x1000 + (b1 - 0x80) * 0x40 + (b2 - 0x80)
          if 0x800 ≤ cp then some (cp, rest3) else Option.none
        else Option.none
      | _ => Option.none
    else if b < 0xF5 then
      match rest with
      | b1 :: b2 :: b3 :: rest4 =>
        if isUtf8Cont b1 ∧ (isUtf8Cont b2 ∧ isUtf8Cont b3) then
          let cp := (b - 0xF0) * 0x40000 + (b1 - 0x80) * 0x1000 +
            (b2 - 0x80) * 0x40 + (b3 - 0x80)
          if 0x10000 ≤ cp ∧ cp < 0x110000 then some (cp, rest4) else Option.none
        else Option.none
      | _ => Option.none
    else Option.none

/-- Fuel-indexed decoding loop: each step decodes one sequence from
the front.  One unit of fuel is spent per decoded code point, and each
sequence consumes at least one byte, so fuel equal to the list length
always suffices. -/
def utf8DecodeLoop : Nat → List Nat → Option (List Nat)
  | _, [] => some []
  | 0, _ :: _ => Option.none
  | Nat.succ fuel, b :: rest =>
    match utf8DecodeOne (b :: rest) with
    | some (cp, rest2) => (utf8DecodeLoop fuel rest2).map (fun cs => cp :: cs)
    | Option.none => Option.none

/-- Strict UTF-8 decoding of a byte sequence into code points, as
performed by Python 2's `utf-8` codec. -/
def utf8Decode (bs : List Nat) : Option (List Nat) :=
  utf8DecodeLoop bs.length bs

/-- Hexadecimal digit character (lower case) for a value below 16. -/
def hexChar (n : Nat) : Char :=
  if n < 10 then Char.ofNat (48 + n) else Char.ofNat (87 + n)

/-- Python 2 `repr` of one byte of a byte string, given the byte value
of the surrounding quote character. -/
def pyReprByteChar (quote : Nat) (b : Nat) : String :=
  if b = 92 then "\\\\"
  else if b = quote then "\\" ++ String.singleton (Char.ofNat b)
  else if b = 10 then "\\n"
  else if b = 13 then "\\r"
  else if b = 9 then "\\t"
  else if 32 ≤ b ∧ b < 127 then String.singleton (Char.ofNat b)
  else "\\x" ++ String.singleton (hexChar (b / 16)) ++ String.singleton (hexChar (b % 16))

/-- Python 2 `repr` of a byte string (`%r` formatting of a `str`):
single-quoted unless the string contains a single quote and no double
quote, with backslash escapes for quotes, backslashes, newline, return,
tab and non-printable bytes. -/
def pyReprBytes (bs : List Nat) : String :=
  let quote : Nat := if bs.contains 39 ∧ ¬ bs.contains 34 then 34 else 39
  String.singleton (Char.ofNat quote)
    ++ String.join (bs.map (pyReprByteChar quote))
    ++ String.singleton (Char.ofNat quote)

/-- Message of the `UnicodeDecodeError` raised by Python 2's `utf-8`
codec itself (abstracted: CPython also reports the byte position). -/
def utf8CodecErrMsg (bs : List Nat) : String :=
  "utf8 codec cannot decode bytes in " ++ pyReprBytes bs ++ ": invalid data"

/-- Message of the `UnicodeEncodeError` raised by Python 2's implicit
`ascii` encoding step when `unicode.decode` meets a non-ASCII code
point (abstracted: CPython also reports the position). -/
def asciiCodecErrMsg : String :=
  "ascii codec cannot encode character: ordinal not in range(128)"

/-- Python 2 semantics of `x.decode("utf-8")` for the values that can
reach that call in this module.  On a byte string it is plain strict
UTF-8 decoding.  On a `unicode` string, Python 2 first implicitly
encodes with the default `ascii` codec (raising `UnicodeEncodeError`
for any code point at or above 128) and then decodes those ASCII bytes
as UTF-8.  `None` has no `decode` attribute. -/
def py2DecodeUtf8 : PyVal → Except PyError PyVal
  | PyVal.none =>
      Except.error (PyError.attributeError "NoneType object has no attribute decode")
  | PyVal.bytes bs =>
      match utf8Decode bs with
      | some cs => Except.ok (PyVal.text cs)
      | Option.none => Except.error (PyError.unicodeDecodeError (utf8CodecErrMsg bs))
  | PyVal.text cs =>
      if cs.all (fun c => c < 128) then
        match utf8Decode cs with
        | some cs2 => Except.ok (PyVal.text cs2)
        | Option.none => Except.error (PyError.unicodeDecodeError (utf8CodecErrMsg cs))
      else
        Except.error (PyError.unicodeEncodeError asciiCodecErrMsg)

/-- The message string the source builds for its intended decoding
error: it interpolates `%r` of the offending byte string and advises
setting `G_FILENAME_ENCODING`. -/
def glibConvertFailMsg (bs : List Nat) : String :=
  "GLib failed to convert " ++ pyReprBytes bs ++
  " to a UTF-8 string. Consider setting G_FILENAME_ENCODING if your file " ++
  "system filename encoding scheme is not UTF-8."

/-- Python semantics of evaluating `UnicodeDecodeError(msg)` with a
single argument, as the source does on the GLib-failure path.  The
`UnicodeDecodeError` constructor requires exactly five arguments
(encoding, object, start, end, reason), so CPython raises a
`TypeError` from the constructor call itself; the prepared message is
discarded and the intended decoding error is never created. -/
def raiseUnicodeDecodeError1 (_msg : String) : PyError :=
  PyError.typeError "function takes exactly 5 arguments (1 given)"

/-- Embedding of `filename_to_unicode(opsysstring)`.

`win32` is the `sys.platform == "win32"` test; `conv` is the behaviour
of `GLib.filename_to_utf8(s, -1, 0, 0)`, returning `None` (modelled
`Option.none`) on conversion failure and a UTF-8 byte string on
success.  Following the source line by line: `None` passes through;
on win32 the value is decoded as UTF-8 directly; otherwise a
non-`str` argument raises `TypeError("Argument must be bytes")`, a
failed GLib conversion evaluates `UnicodeDecodeError(msg)` (see
`raiseUnicodeDecodeError1`), and a successful conversion result is
decoded with `.decode("utf-8")`. -/
def filename_to_unicode (win32 : Bool) (conv : List Nat → Option (List Nat)) :
    PyVal → Except PyError PyVal
  | PyVal.none => Except.ok PyVal.none
  | PyVal.bytes bs =>
      if win32 then py2DecodeUtf8 (PyVal.bytes bs)
      else
        match conv bs with
        | Option.none => Except.error (raiseUnicodeDecodeError1 (glibConvertFailMsg bs))
        | some ubs => py2DecodeUtf8 (PyVal.bytes ubs)
  | PyVal.text cs =>
      if win32 then py2DecodeUtf8 (PyVal.text cs)
      else Except.error (PyError.typeError "Argument must be bytes")

/-- Python 2 `repr` of one code point of a `unicode` string, given the
code point of the surrounding quote character. -/
def pyReprTextChar (quote : Nat) (c : Nat) : String :=
  if c = 92 then "\\\\"
  else if c = quote then "\\" ++ String.singleton (Char.ofNat c)
  else if c = 10 then "\\n"
  else if c = 13 then "\\r"
  else if c = 9 then "\\t"
  else if 32 ≤ c ∧ c < 127 then String.singleton (Char.ofNat c)
  else if c < 0x100 then
    "\\x" ++ String.singleton (hexChar (c / 16)) ++ String.singleton (hexChar (c % 16))
  else if c < 0x10000 then
    "\\u" ++ String.singleton (hexChar (c / 0x1000 % 16))
      ++ String.singleton (hexChar (c / 0x100 % 16))
      ++ String.singleton (hexChar (c / 16 % 16))
      ++ String.singleton (hexChar (c % 16))
  else
    "\\U" ++ String.join ((List.range 8).reverse.map
      (fun k => String.singleton (hexChar (c / 16 ^ k % 16))))

/-- Python 2 `repr` of a `unicode` string: like `pyReprBytes` but with
a `u` before the opening quote and `\\u`/`\\U` escapes for code points
above `0xFF`. -/
def pyReprText (cs : List Nat) : String :=
  let quote : Nat := if cs.contains 39 ∧ ¬ cs.contains 34 then 34 else 39
  "u" ++ String.singleton (Char.ofNat quote)
    ++ String.join (cs.map (pyReprTextChar quote))
    ++ String.singleton (Char.ofNat quote)

/-- Python 2 `repr` (`%r` formatting) of the values that reach the
debug-log format strings. -/
def pyReprVal : PyVal → String
  | PyVal.none => "None"
  | PyVal.bytes bs => pyReprBytes bs
  | PyVal.text cs => pyReprText cs

/-- The platform behaviour the module depends on: the win32 flag, the
`GLib.filename_to_utf8` conversion primitive, and the results of the
four directory primitives (each a byte string or `None`). -/
structure GlibEnv where
  win32 : Bool
  conv : List Nat → Option (List Nat)
  configDir : Option (List Nat)
  dataDir : Option (List Nat)
  cacheDir : Option (List Nat)
  specialDir : Nat → Option (List Nat)

/-- A GLib primitive result (`str` or `None`) as a `PyVal`. -/
def optToPyVal : Option (List Nat) → PyVal
  | Option.none => PyVal.none
  | some bs => PyVal.bytes bs

/-- Embedding of `get_user_config_dir()`: the platform primitive's
result passed through `filename_to_unicode`. -/
def get_user_config_dir (env : GlibEnv) : Except PyError PyVal :=
  filename_to_unicode env.win32 env.conv (optToPyVal env.configDir)

/-- Embedding of `get_user_data_dir()`: the platform primitive's
result passed through `filename_to_unicode`. -/
def get_user_data_dir (env : GlibEnv) : Except PyError PyVal :=
  filename_to_unicode env.win32 env.conv (optToPyVal env.dataDir)

/-- Embedding of `get_user_cache_dir()`: the platform primitive's
result passed through `filename_to_unicode`. -/
def get_user_cache_dir (env : GlibEnv) : Except PyError PyVal :=
  filename_to_unicode env.win32 env.conv (optToPyVal env.cacheDir)

/-- Embedding of `get_user_special_dir(d_id)`: the platform
primitive's result for that identifier passed through
`filename_to_unicode`. -/
def get_user_special_dir (env : GlibEnv) (d_id : Nat) : Except PyError PyVal :=
  filename_to_unicode env.win32 env.conv (optToPyVal (env.specialDir d_id))

/-- GLib's `GLib.UserDirectory.N_DIRECTORIES`: the number of members
of the special-directory enumeration (desktop, documents, download,
music, pictures, public share, templates, videos). -/
def N_DIRECTORIES : Nat := 8

/-- The `value_name` of `GLib.UserDirectory(i)` for each member of the
enumeration, used in the special-directory debug log line. -/
def userDirValueName (i : Nat) : String :=
  (["G_USER_DIRECTORY_DESKTOP", "G_USER_DIRECTORY_DOCUMENTS",
    "G_USER_DIRECTORY_DOWNLOAD", "G_USER_DIRECTORY_MUSIC",
    "G_USER_DIRECTORY_PICTURES", "G_USER_DIRECTORY_PUBLIC_SHARE",
    "G_USER_DIRECTORY_TEMPLATES", "G_USER_DIRECTORY_VIDEOS"]).getD i ""

/-- Events of `init_user_dir_caches`: a query of one of the platform
directory primitives, or a `logger.debug` entry (stored with its
formatted message). -/
inductive DirEvent where
  | queryConfig : DirEvent
  | queryData : DirEvent
  | queryCache : DirEvent
  | querySpecial (i : Nat) : DirEvent
  | logEntry (msg : String) : DirEvent
  deriving Repr, DecidableEq

/-- Formatted message of the config-directory debug log line. -/
def configLogMsg (v : PyVal) : String :=
  "Init g_get_user_config_dir(): " ++ pyReprVal v

/-- Formatted message of the data-directory debug log line. -/
def dataLogMsg (v : PyVal) : String :=
  "Init g_get_user_data_dir(): " ++ pyReprVal v

/-- Formatted message of the cache-directory debug log line. -/
def cacheLogMsg (v : PyVal) : String :=
  "Init g_get_user_cache_dir(): " ++ pyReprVal v

/-- Formatted message of the special-directory debug log line for
enumeration member `i`. -/
def specialLogMsg (i : Nat) (v : PyVal) : String :=
  "Init g_get_user_special_dir(" ++ userDirValueName i ++ "): " ++ pyReprVal v

/-- The `for i in range(N_DIRECTORIES)` loop of `init_user_dir_caches`
over the remaining identifiers: query `get_user_special_dir`, log the
result, continue; a raised exception propagates. -/
def initSpecialLoop (env : GlibEnv) : List Nat → Except PyError (List DirEvent)
  | [] => Except.ok []
  | i :: rest =>
    match get_user_special_dir env i with
    | Except.error e => Except.error e
    | Except.ok v =>
      (initSpecialLoop env rest).map
        (fun t => DirEvent.querySpecial i :: DirEvent.logEntry (specialLogMsg i v) :: t)

/-- Embedding of `init_user_dir_caches()` as its event trace: queries
the config, data and cache directories, logging each result, then
iterates over the special-directory enumeration in order, logging each
result; any raised exception propagates and aborts the sequence. -/
def init_user_dir_caches_trace (env : GlibEnv) : Except PyError (List DirEvent) :=
  match get_user_config_dir env with
  | Except.error e => Except.error e
  | Except.ok v1 =>
    match get_user_data_dir env with
    | Except.error e => Except.error e
    | Except.ok v2 =>
      match get_user_cache_dir env with
      | Except.error e => Except.error e
      | Except.ok v3 =>
        (initSpecialLoop env (List.range N_DIRECTORIES)).map
          (fun t =>
            DirEvent.queryConfig :: DirEvent.logEntry (configLogMsg v1) ::
            DirEvent.queryData :: DirEvent.logEntry (dataLogMsg v2) ::
            DirEvent.queryCache :: DirEvent.logEntry (cacheLogMsg v3) :: t)

/-- Embedding of the value of `init_user_dir_caches()` proper: the
Python function has no `return` statement, so it returns `None`
(modelled `Unit`) when no exception is raised. -/
def init_user_dir_caches (env : GlibEnv) : Except PyError Unit :=
  (init_user_dir_caches_trace env).map (fun _ => Unit.unit)

/-- The log entries of an event trace, in order. -/
def logsOf (t : List DirEvent) : List String :=
  t.filterMap (fun e =>
    match e with
    | DirEvent.logEntry m => some m
    | _ => Option.none)

/-- Normal conditions for `init_user_dir_caches`: every platform
primitive result converts successfully through `filename_to_unicode`
(absent results are allowed and convert to absent). -/
def GlibEnv.allConvertible (env : GlibEnv) : Prop :=
  (∃ v, get_user_config_dir env = Except.ok v) ∧
  (∃ v, get_user_data_dir env = Except.ok v) ∧
  (∃ v, get_user_cache_dir env = Except.ok v) ∧
  (∀ i, i < N_DIRECTORIES → ∃ v, get_user_special_dir env i = Except.ok v)

/-- Specification-side definition for the refinement claim: plain
strict UTF-8 decoding of a byte sequence into text ("decode directly
as UTF-8 and return"), with the codec's own decoding error on invalid
UTF-8. -/
def spec_plainUtf8Decoding (bs : List Nat) : Except PyError PyVal :=
  match utf8Decode bs with
  | some cs => Except.ok (PyVal.text cs)
  | Option.none => Except.error (PyError.unicodeDecodeError (utf8CodecErrMsg bs))

/-- An ASCII byte decodes to itself and consumes only itself. -/
theorem utf8DecodeOne_ascii (b : Nat) (rest : List Nat) (hb : b < 128) :
    utf8DecodeOne (b :: rest) = some (b, rest) := by
  simp [utf8DecodeOne, hb]

/-- The decoding loop is the identity on all-ASCII byte sequences,
given enough fuel. -/
theorem utf8DecodeLoop_ascii (bs : List Nat) (h : ∀ b ∈ bs, b < 128)
    (fuel : Nat) (hf : bs.length ≤ fuel) : utf8DecodeLoop fuel bs = some bs := by
  induction bs generalizing fuel with
  | nil => cases fuel <;> rfl
  | cons b rest ih =>
    cases fuel with
    | zero => simp at hf
    | succ fuel =>
      have hb : b < 128 := h b (by simp)
      have hr : ∀ x ∈ rest, x < 128 := fun x hx => h x (by simp [hx])
      have hf2 : rest.length ≤ fuel := by simpa using hf
      simp [utf8DecodeLoop, utf8DecodeOne_ascii b rest hb, ih hr fuel hf2]

/-- Strict UTF-8 decoding is the identity on all-ASCII byte
sequences. -/
theorem utf8Decode_ascii (bs : List Nat) (h : ∀ b ∈ bs, b < 128) :
    utf8Decode bs = some bs :=
  utf8DecodeLoop_ascii bs h bs.length le_rfl

/-- A concrete all-ASCII path, the byte string of
"/ascii/only/path". -/
def asciiPathBytes : List Nat :=
  [47, 97, 115, 99, 105, 105, 47, 111, 110, 108, 121, 47, 112, 97, 116, 104]

/-- C5: for the absent input (`None`), `filename_to_unicode` returns
absent and never raises, for every platform flag and every behaviour
of the conversion primitive: the absent check precedes the platform
branch, the type check and any decoding. -/
theorem filename_to_unicode_none (win32 : Bool) (conv : List Nat → Option (List Nat)) :
    filename_to_unicode win32 conv PyVal.none = Except.ok PyVal.none := rfl

/-- C3: on the win32 branch, `filename_to_unicode` on a byte string
equals plain UTF-8 decoding of that byte string, and the conversion
primitive is never consulted (the result is the same for every
primitive behaviour). -/
theorem filename_to_unicode_win32_plain_utf8
    (conv conv2 : List Nat → Option (List Nat)) (bs : List Nat) :
    filename_to_unicode true conv (PyVal.bytes bs) = spec_plainUtf8Decoding bs ∧
    filename_to_unicode true conv (PyVal.bytes bs) =
      filename_to_unicode true conv2 (PyVal.bytes bs) :=
  ⟨rfl, rfl⟩

/-- C2 (counterexample): the claim that a text input raises a type
error on every platform fails on the win32 branch, which precedes the
isinstance check: there the input is decoded instead, and ASCII text
is returned unchanged, not rejected. -/
theorem filename_to_unicode_win32_text_no_type_error :
    filename_to_unicode true (fun bs => some bs) (PyVal.text [97]) =
      Except.ok (PyVal.text [97]) ∧
    ¬ ∃ m, filename_to_unicode true (fun bs => some bs) (PyVal.text [97]) =
      Except.error (PyError.typeError m) := by
  refine ⟨rfl, ?_⟩
  rintro ⟨m, hm⟩
  have h2 : Except.ok (PyVal.text [97]) = Except.error (PyError.typeError m) :=
    Eq.trans rfl hm
  exact Except.noConfusion h2

/-- C2 (amended): on non-win32 platforms, `filename_to_unicode` raises
`TypeError("Argument must be bytes")` for every text input and every
behaviour of the conversion primitive; on win32 the text input is
decoded by the UTF-8 branch instead of being type-checked. -/
theorem filename_to_unicode_nonwin32_text_type_error
    (conv : List Nat → Option (List Nat)) (cs : List Nat) :
    filename_to_unicode false conv (PyVal.text cs) =
      Except.error (PyError.typeError "Argument must be bytes") := rfl

/-- C4: for every all-ASCII byte-string input, on every platform,
`filename_to_unicode` returns text with the same character content as
the input, assuming the conversion primitive maps the ASCII byte
string to itself. -/
theorem filename_to_unicode_ascii_id (w : Bool)
    (conv : List Nat → Option (List Nat)) (bs : List Nat)
    (hascii : ∀ b ∈ bs, b < 128) (hconv : conv bs = some bs) :
    filename_to_unicode w conv (PyVal.bytes bs) = Except.ok (PyVal.text bs) := by
  have hd := utf8Decode_ascii bs hascii
  cases w <;> simp only [filename_to_unicode, py2DecodeUtf8, hconv, hd] <;> simp

/-- C4 (witness): the concrete doctest scenario, the ASCII path
"/ascii/only/path" converts to itself as text. -/
theorem filename_to_unicode_ascii_id_witness :
    filename_to_unicode false (fun bs => some bs) (PyVal.bytes asciiPathBytes) =
      Except.ok (PyVal.text asciiPathBytes) :=
  filename_to_unicode_ascii_id false (fun bs => some bs) asciiPathBytes
    (by decide) rfl

/-- C1 (code bug): when the GLib conversion primitive reports failure,
the source evaluates `UnicodeDecodeError(msg)` with a single argument;
Python's `UnicodeDecodeError` constructor requires five arguments, so
the call raises `TypeError("function takes exactly 5 arguments (1
given)")` and the intended decoding error, whose prepared message
names the offending bytes and `G_FILENAME_ENCODING`, is never
raised. -/
theorem glib_convert_failure_raises_type_error :
    filename_to_unicode false (fun _ => Option.none) (PyVal.bytes [255]) =
      Except.error (PyError.typeError "function takes exactly 5 arguments (1 given)") :=
  rfl

/-- C9: `filename_to_unicode` is deterministic: with the same platform
flag, extensionally equal conversion primitives and equal inputs, two
calls return the same outcome; no module state influences the
result. -/
theorem filename_to_unicode_deterministic (w : Bool)
    (conv1 conv2 : List Nat → Option (List Nat)) (v1 v2 : PyVal)
    (hconv : ∀ bs, conv1 bs = conv2 bs) (hv : v1 = v2) :
    filename_to_unicode w conv1 v1 = filename_to_unicode w conv2 v2 := by
  have hc : conv1 = conv2 := funext hconv
  rw [hc, hv]

/-- C9 (witness): two equal calls on a concrete byte string agree. -/
theorem filename_to_unicode_deterministic_witness :
    filename_to_unicode false (fun bs => some bs) (PyVal.bytes [97]) =
      filename_to_unicode false (fun bs => some bs) (PyVal.bytes [97]) :=
  filename_to_unicode_deterministic false (fun bs => some bs) (fun bs => some bs)
    (PyVal.bytes [97]) (PyVal.bytes [97]) (fun _ => rfl) rfl

/-- Whenever `py2DecodeUtf8` returns normally, the value is a text
string. -/
theorem py2DecodeUtf8_ok_shape (v u : PyVal)
    (h : py2DecodeUtf8 v = Except.ok u) : ∃ cs, u = PyVal.text cs := by
  cases v with
  | none => exact absurd h (by simp [py2DecodeUtf8])
  | bytes bs =>
      simp only [py2DecodeUtf8] at h
      split at h
      · exact ⟨_, (Except.ok.inj h).symm⟩
      · exact absurd h (by simp)
  | text cs =>
      simp only [py2DecodeUtf8] at h
      split at h
      · split at h
        · exact ⟨_, (Except.ok.inj h).symm⟩
        · exact absurd h (by simp)
      · exact absurd h (by simp)

/-- Whenever `filename_to_unicode` returns normally, the value is
absent or a text string, never a raw byte string. -/
theorem filename_to_unicode_ok_shape (w : Bool)
    (conv : List Nat → Option (List Nat)) (v u : PyVal)
    (h : filename_to_unicode w conv v = Except.ok u) :
    u = PyVal.none ∨ ∃ cs, u = PyVal.text cs := by
  cases v with
  | none =>
      left
      have h2 : PyVal.none = u := by simpa [filename_to_unicode] using h
      exact h2.symm
  | bytes bs =>
      right
      simp only [filename_to_unicode] at h
      split at h
      · exact py2DecodeUtf8_ok_shape _ u h
      · split at h
        · exact absurd h (by simp)
        · exact py2DecodeUtf8_ok_shape _ u h
  | text cs =>
      right
      simp only [filename_to_unicode] at h
      split at h
      · exact py2DecodeUtf8_ok_shape _ u h
      · exact absurd h (by simp)

/-- A platform where every conversion succeeds: win32 with all four
directory primitives returning ASCII byte strings. -/
def envGood : GlibEnv :=
  { win32 := true, conv := fun bs => some bs, configDir := some [97],
    dataDir := some [98], cacheDir := some [99],
    specialDir := fun _ => some [100] }

/-- C6 (counterexample): when the special-directory primitive returns
a byte sequence on which the conversion primitive fails,
`get_user_special_dir` raises (the `TypeError` produced by the
malformed `UnicodeDecodeError` construction), so for a valid
identifier it does not return text-or-absent for every possible
primitive result. -/
theorem get_user_special_dir_can_raise :
    get_user_special_dir
      { win32 := false, conv := fun _ => Option.none, configDir := Option.none,
        dataDir := Option.none, cacheDir := Option.none,
        specialDir := fun _ => some [255] } 0 =
      Except.error (PyError.typeError "function takes exactly 5 arguments (1 given)") :=
  rfl

/-- C6 (amended): for every identifier, whenever the conversion
pipeline succeeds on the primitive's result (in particular whenever
the primitive returns absent), `get_user_special_dir` returns decoded
text or absent, never a raw byte string; it can raise only when the
byte-to-UTF-8 conversion of a returned byte sequence fails. -/
theorem get_user_special_dir_text_or_absent (env : GlibEnv) (d : Nat)
    (h : ∃ v, get_user_special_dir env d = Except.ok v) :
    ∃ v, get_user_special_dir env d = Except.ok v ∧
      (v = PyVal.none ∨ ∃ cs, v = PyVal.text cs) := by
  obtain ⟨v, hv⟩ := h
  exact ⟨v, hv, filename_to_unicode_ok_shape env.win32 env.conv _ v hv⟩

/-- C6 (witness): on a concrete platform where the conversion
succeeds, identifier 0 yields text. -/
theorem get_user_special_dir_text_or_absent_witness :
    ∃ v, get_user_special_dir envGood 0 = Except.ok v ∧
      (v = PyVal.none ∨ ∃ cs, v = PyVal.text cs) :=
  get_user_special_dir_text_or_absent envGood 0 ⟨PyVal.text [100], rfl⟩

/-- C7 (amended): each of the three fixed directory getters is exactly
the corresponding platform primitive composed with
`filename_to_unicode`, and whenever one returns normally the value is
absent or a text value, never a raw byte sequence; the text value can
be empty when the primitive returns an empty byte string. -/
theorem user_dir_getters (env : GlibEnv) :
    get_user_config_dir env =
      filename_to_unicode env.win32 env.conv (optToPyVal env.configDir) ∧
    get_user_data_dir env =
      filename_to_unicode env.win32 env.conv (optToPyVal env.dataDir) ∧
    get_user_cache_dir env =
      filename_to_unicode env.win32 env.conv (optToPyVal env.cacheDir) ∧
    ∀ v, (get_user_config_dir env = Except.ok v ∨
          get_user_data_dir env = Except.ok v ∨
          get_user_cache_dir env = Except.ok v) →
      v = PyVal.none ∨ ∃ cs, v = PyVal.text cs := by
  refine ⟨rfl, rfl, rfl, ?_⟩
  rintro v (hv | hv | hv) <;> exact filename_to_unicode_ok_shape _ _ _ _ hv

/-- C7 (witness): on a concrete platform the config getter returns
text, which is indeed absent-or-text. -/
theorem user_dir_getters_witness :
    PyVal.text [97] = PyVal.none ∨ ∃ cs, PyVal.text [97] = PyVal.text cs :=
  (user_dir_getters envGood).2.2.2 (PyVal.text [97]) (Or.inl rfl)

/-- C7 (counterexample): if the config-directory primitive returns an
empty byte string, the getter returns empty text, refuting the claim
that the result is always absent or non-empty. -/
theorem get_user_config_dir_empty_text :
    get_user_config_dir
      { win32 := true, conv := fun bs => some bs, configDir := some [],
        dataDir := Option.none, cacheDir := Option.none,
        specialDir := fun _ => Option.none } = Except.ok (PyVal.text []) ∧
    ¬ (PyVal.text [] = PyVal.none ∨
       ∃ cs, cs ≠ [] ∧ PyVal.text [] = PyVal.text cs) := by
  refine ⟨rfl, ?_⟩
  rintro (h | ⟨cs, hne, hcs⟩)
  · exact PyVal.noConfusion h
  · exact hne (PyVal.text.inj hcs).symm

/-- Under `allConvertible`, the event trace of `init_user_dir_caches`
is the fixed interleaving of eleven queries each immediately followed
by its log entry. -/
theorem initTrace_explicit (env : GlibEnv) (h : env.allConvertible) :
    ∃ m1 m2 m3 s0 s1 s2 s3 s4 s5 s6 s7,
      init_user_dir_caches_trace env = Except.ok
        [DirEvent.queryConfig, DirEvent.logEntry m1,
         DirEvent.queryData, DirEvent.logEntry m2,
         DirEvent.queryCache, DirEvent.logEntry m3,
         DirEvent.querySpecial 0, DirEvent.logEntry s0,
         DirEvent.querySpecial 1, DirEvent.logEntry s1,
         DirEvent.querySpecial 2, DirEvent.logEntry s2,
         DirEvent.querySpecial 3, DirEvent.logEntry s3,
         DirEvent.querySpecial 4, DirEvent.logEntry s4,
         DirEvent.querySpecial 5, DirEvent.logEntry s5,
         DirEvent.querySpecial 6, DirEvent.logEntry s6,
         DirEvent.querySpecial 7, DirEvent.logEntry s7] := by
  obtain ⟨⟨v1, h1⟩, ⟨v2, h2⟩, ⟨v3, h3⟩, hs⟩ := h
  obtain ⟨w0, hw0⟩ := hs 0 (by norm_num [N_DIRECTORIES])
  obtain ⟨w1, hw1⟩ := hs 1 (by norm_num [N_DIRECTORIES])
  obtain ⟨w2, hw2⟩ := hs 2 (by norm_num [N_DIRECTORIES])
  obtain ⟨w3, hw3⟩ := hs 3 (by norm_num [N_DIRECTORIES])
  obtain ⟨w4, hw4⟩ := hs 4 (by norm_num [N_DIRECTORIES])
  obtain ⟨w5, hw5⟩ := hs 5 (by norm_num [N_DIRECTORIES])
  obtain ⟨w6, hw6⟩ := hs 6 (by norm_num [N_DIRECTORIES])
  obtain ⟨w7, hw7⟩ := hs 7 (by norm_num [N_DIRECTORIES])
  have hrange : List.range N_DIRECTORIES = [0, 1, 2, 3, 4, 5, 6, 7] := rfl
  refine ⟨configLogMsg v1, dataLogMsg v2, cacheLogMsg v3,
    specialLogMsg 0 w0, specialLogMsg 1 w1, specialLogMsg 2 w2,
    specialLogMsg 3 w3, specialLogMsg 4 w4, specialLogMsg 5 w5,
    specialLogMsg 6 w6, specialLogMsg 7 w7, ?_⟩
  simp only [init_user_dir_caches_trace, h1, h2, h3, hrange, initSpecialLoop,
    hw0, hw1, hw2, hw3, hw4, hw5, hw6, hw7, Except.map_ok, Except.map]

/-- C10: under normal conditions `init_user_dir_caches` queries in a
fixed order: config, then data, then cache, then every
special-directory identifier exactly once in ascending order 0 to 7,
each query's result logged before the next query. -/
theorem init_user_dir_caches_query_order (env : GlibEnv) (h : env.allConvertible) :
    ∃ m1 m2 m3 s0 s1 s2 s3 s4 s5 s6 s7,
      init_user_dir_caches_trace env = Except.ok
        [DirEvent.queryConfig, DirEvent.logEntry m1,
         DirEvent.queryData, DirEvent.logEntry m2,
         DirEvent.queryCache, DirEvent.logEntry m3,
         DirEvent.querySpecial 0, DirEvent.logEntry s0,
         DirEvent.querySpecial 1, DirEvent.logEntry s1,
         DirEvent.querySpecial 2, DirEvent.logEntry s2,
         DirEvent.querySpecial 3, DirEvent.logEntry s3,
         DirEvent.querySpecial 4, DirEvent.logEntry s4,
         DirEvent.querySpecial 5, DirEvent.logEntry s5,
         DirEvent.querySpecial 6, DirEvent.logEntry s6,
         DirEvent.querySpecial 7, DirEvent.logEntry s7] :=
  initTrace_explicit env h

/-- C10 (witness): the fixed ordering on a concrete platform where
every conversion succeeds. -/
theorem init_user_dir_caches_query_order_witness :
    ∃ m1 m2 m3 s0 s1 s2 s3 s4 s5 s6 s7,
      init_user_dir_caches_trace envGood = Except.ok
        [DirEvent.queryConfig, DirEvent.logEntry m1,
         DirEvent.queryData, DirEvent.logEntry m2,
         DirEvent.queryCache, DirEvent.logEntry m3,
         DirEvent.querySpecial 0, DirEvent.logEntry s0,
         DirEvent.querySpecial 1, DirEvent.logEntry s1,
         DirEvent.querySpecial 2, DirEvent.logEntry s2,
         DirEvent.querySpecial 3, DirEvent.logEntry s3,
         DirEvent.querySpecial 4, DirEvent.logEntry s4,
         DirEvent.querySpecial 5, DirEvent.logEntry s5,
         DirEvent.querySpecial 6, DirEvent.logEntry s6,
         DirEvent.querySpecial 7, DirEvent.logEntry s7] :=
  init_user_dir_caches_query_order envGood
    ⟨⟨_, rfl⟩, ⟨_, rfl⟩, ⟨_, rfl⟩, fun _ _ => ⟨_, rfl⟩⟩

/-- C8: under normal conditions (every primitive result convertible),
`init_user_dir_caches` completes without raising, returns no value,
and emits exactly one diagnostic log entry per directory kind queried:
three fixed plus one per special-directory enumeration member. -/
theorem init_user_dir_caches_log_count (env : GlibEnv) (h : env.allConvertible) :
    ∃ t, init_user_dir_caches_trace env = Except.ok t ∧
      (logsOf t).length = 3 + N_DIRECTORIES ∧
      init_user_dir_caches env = Except.ok Unit.unit := by
  obtain ⟨m1, m2, m3, s0, s1, s2, s3, s4, s5, s6, s7, ht⟩ := initTrace_explicit env h
  refine ⟨_, ht, ?_, ?_⟩
  · simp [logsOf, N_DIRECTORIES]
  · simp [init_user_dir_caches, ht, Except.map]

/-- C8 (witness): on a concrete platform where every conversion
succeeds, the run completes with eleven log entries. -/
theorem init_user_dir_caches_log_count_witness :
    ∃ t, init_user_dir_caches_trace envGood = Except.ok t ∧
      (logsOf t).length = 3 + N_DIRECTORIES ∧
      init_user_dir_caches envGood = Except.ok Unit.unit :=
  init_user_dir_caches_log_count envGood
    ⟨⟨_, rfl⟩, ⟨_, rfl⟩, ⟨_, rfl⟩, fun _ _ => ⟨_, rfl⟩⟩

end MyPaintGlib
